import Mathlib

/-!
Verification model of krunner_appmenu (src/krunner_appmenu.py), a KRunner
plugin exposing the focused application's appmenu entries as search results.

The embedding is executable: Python floats are modelled as exact rationals
(`Q`, kept in lowest terms with a positive denominator so that structural
equality coincides with value equality), Python exceptions as `Except`
errors, and the dbus transport as an explicit function from menu item ids
to fetched layouts.  Recursive functions are structurally recursive (on an
explicit fuel argument where the source recursion is over remotely fetched
data), so every definition evaluates inside the kernel.
-/

/-- Structural gcd with explicit fuel (the fuel is always sufficient when it
is at least the second argument plus one). -/
def gcdFuel : Nat → Nat → Nat → Nat
  | 0, _, b => b
  | _ + 1, 0, b => b
  | f + 1, a + 1, b => gcdFuel f (b % (a + 1)) (a + 1)

/-- Greatest common divisor, kernel-reducible. -/
def ngcd (a b : Nat) : Nat := gcdFuel (a + b + 1) a b

/-- Exact rational number: numerator and (denominator - 1), so the
denominator `pden + 1` is always positive.  All constructors below
normalise, making structural equality coincide with value equality. -/
structure Q where
  num : Int
  pden : Nat
deriving DecidableEq

/-- The (always positive) denominator as an integer. -/
def Q.denI (q : Q) : Int := (q.pden : Int) + 1

/-- Build the canonical representation of `n / d` for `d ≥ 1` (all call
sites guard `d ≠ 0`, mirroring Python's ZeroDivisionError checks; `d = 0`
falls back to `0`). -/
def mkQ (n : Int) (d : Nat) : Q :=
  match d with
  | 0 => ⟨0, 0⟩
  | dd + 1 =>
    let g := ngcd n.natAbs (dd + 1)
    match (dd + 1) / g with
    | 0 => ⟨0, 0⟩
    | d2 + 1 => ⟨n / (g : Int), d2⟩

def Q.add (a b : Q) : Q :=
  mkQ (a.num * b.denI + b.num * a.denI) ((a.pden + 1) * (b.pden + 1))

def Q.sub (a b : Q) : Q :=
  mkQ (a.num * b.denI - b.num * a.denI) ((a.pden + 1) * (b.pden + 1))

def Q.mul (a b : Q) : Q :=
  mkQ (a.num * b.num) ((a.pden + 1) * (b.pden + 1))

/-- Division of a rational by a natural number (callers guard `n ≠ 0`). -/
def Q.divn (a : Q) (n : Nat) : Q := mkQ a.num ((a.pden + 1) * n)

/-- Strict order, by cross multiplication (denominators are positive). -/
def Q.blt (a b : Q) : Bool := decide (a.num * b.denI < b.num * a.denI)

def Q.ble (a b : Q) : Bool := ! Q.blt b a

/-- Python `max` of two floats (returns the first argument on ties). -/
def Q.max2 (a b : Q) : Q := if Q.blt a b then b else a

def q0 : Q := ⟨0, 0⟩
def q1 : Q := ⟨1, 0⟩

/- ## Text normalisation (Runner._remove_special_chars and str helpers) -/

/-- Word characters of Python's regex `\w` restricted to the ASCII and
Latin-1/Latin-Extended-A ranges (letters, digits, and the underscore;
the multiplication and division signs U+00D7/U+00F7 are not letters).
Sufficient for every string this development evaluates on. -/
def wordChar (c : Char) : Bool :=
  c.isAlphanum || c == '_' ||
    (0xC0 ≤ c.toNat && c.toNat ≤ 0x17F && c.toNat != 0xD7 && c.toNat != 0xF7)

/-- Python `str.lower()`, modelled for ASCII case mapping (`Char.toLower`
lowercases exactly the ASCII uppercase letters). -/
def pyLower (s : String) : String := ⟨s.data.map Char.toLower⟩

/-- Python `str.upper()`, modelled for ASCII case mapping. -/
def pyUpper (s : String) : String := ⟨s.data.map Char.toUpper⟩

/-- Python `str.split()` with no argument: split on runs of whitespace and
drop empty pieces.  After `re.sub(r'[^\w]', ' ', s)` the only whitespace
character left is the space, so splitting on spaces is exact. -/
def splitSpacesAux : List Char → List Char → List (List Char)
  | [], acc => if acc = [] then [] else [acc.reverse]
  | c :: cs, acc =>
    if c = ' ' then
      if acc = [] then splitSpacesAux cs []
      else acc.reverse :: splitSpacesAux cs []
    else splitSpacesAux cs (c :: acc)

def splitSpaces (l : List Char) : List (List Char) := splitSpacesAux l []

/-- Words of a string, Python `s.split()`. -/
def pyWords (s : String) : List String := (splitSpaces s.data).map fun cs => ⟨cs⟩

/-- Python `sep.join(pieces)`. -/
def joinWith (sep : String) : List String → String
  | [] => ""
  | [w] => w
  | w :: ws => w ++ sep ++ joinWith sep ws

/-- Python `s.strip()` for space whitespace (used only to state claims about
trimmed queries). -/
def pyStrip (s : String) : String :=
  ⟨((s.data.dropWhile (· = ' ')).reverse.dropWhile (· = ' ')).reverse⟩

/-- Runner._remove_special_chars: `' '.join(re.sub(r'[^\w]', ' ', s).split())`.
Every non-word character becomes a space, then runs of spaces are collapsed
and the ends trimmed by split/join. -/
def removeSpecialChars (s : String) : String :=
  joinWith " " ((splitSpaces (s.data.map fun c => if wordChar c then c else ' ')).map fun cs => ⟨cs⟩)

/-- Python `label.replace("_", "")` (Runner._format_label): the pattern is a
single character and the replacement empty, so it deletes underscores. -/
def formatLabel (label : String) : String := ⟨label.data.filter (· ≠ '_')⟩

/-- Python `str.split(sep)` for a one-character separator: keeps empty
pieces, and `''.split(sep) = ['']`. -/
def pySplitOn (sep : Char) : List Char → List (List Char)
  | [] => [[]]
  | c :: cs =>
    if c = sep then [] :: pySplitOn sep cs
    else
      match pySplitOn sep cs with
      | w :: ws => (c :: w) :: ws
      | [] => [[c]]

/-- Python `int(s)` on an optionally signed run of digits (the only shapes
reaching it here); `int('')` raises ValueError, modelled as `none`. -/
def digitsToNat? (ds : List Char) : Option Nat :=
  if ds ≠ [] ∧ ds.all Char.isDigit then
    some (ds.foldl (fun acc c => acc * 10 + (c.toNat - '0'.toNat)) 0)
  else none

def parsePyInt (s : List Char) : Option Int :=
  match s with
  | '-' :: ds => (digitsToNat? ds).map fun n => -(n : Int)
  | '+' :: ds => (digitsToNat? ds).map fun n => (n : Int)
  | ds => (digitsToNat? ds).map fun n => (n : Int)

/-- Keep the first occurrence of each string (models iterating a Python set
built from a list; downstream uses are order-insensitive). -/
def dedupAux (seen : List String) : List String → List String
  | [] => []
  | x :: xs => if seen.contains x then dedupAux seen xs else x :: dedupAux (x :: seen) xs

def dedup (l : List String) : List String := dedupAux [] l

/- ## difflib.SequenceMatcher (as used via the two lru_cached helpers)

The helpers are called with `isjunk = None` and strings far below the
autojunk threshold of 200 characters, so the junk sets are empty and the
junk-extension loops of `find_longest_match` never fire. -/

/-- Indices at which character `c` occurs in `b`, in increasing order
(difflib's `b2j` mapping). -/
def b2jOf (b : List Char) (c : Char) : List Nat :=
  (List.range b.length).filter fun j => b.get? j = some c

/-- Lookup in the `j2len` row of the dynamic program (`j2len.get(j-1, 0)`). -/
def j2lenGet (m : List (Nat × Nat)) (j : Nat) : Nat :=
  ((m.find? fun p => p.1 == j).map Prod.snd).getD 0

/-- Core dynamic program of `find_longest_match`: for each `i` and each
position `j` of `a[i]` inside `b[blo:bhi]`, the length of the longest
match ending at `(i, j)` extends the one ending at `(i-1, j-1)`; the best
(longest, then earliest in `a`, then earliest in `b`) block wins. -/
def flmFold (a b : List Char) (alo ahi blo bhi : Nat) : Nat × Nat × Nat :=
  ((List.range' alo (ahi - alo)).foldl
    (fun (st : List (Nat × Nat) × (Nat × Nat × Nat)) i =>
      let j2len := st.1
      let js := (b2jOf b (a.getD i ' ')).filter fun j => decide (blo ≤ j ∧ j < bhi)
      js.foldl
        (fun (acc : List (Nat × Nat) × (Nat × Nat × Nat)) j =>
          let k := (if j = 0 then 0 else j2lenGet j2len (j - 1)) + 1
          let best := if k > acc.2.2.2 then (i + 1 - k, j + 1 - k, k) else acc.2
          ((j, k) :: acc.1, best))
        ([], st.2))
    ([], (alo, blo, 0))).2

/-- Leftward extension of the best block over equal (non-junk) characters;
a no-op after the full dynamic program, kept for fidelity to the source. -/
def extendLeft (a b : List Char) (alo blo : Nat) : Nat → Nat → Nat → Nat × Nat × Nat
  | 0, bestj, bestsize => (0, bestj, bestsize)
  | besti + 1, bestj, bestsize =>
    if alo < besti + 1 ∧ blo < bestj ∧ a.get? besti = b.get? (bestj - 1) ∧ (a.get? besti).isSome
    then extendLeft a b alo blo besti (bestj - 1) (bestsize + 1)
    else (besti + 1, bestj, bestsize)

/-- Rightward extension of the best block (fuel-structured; the fuel is the
range bound, always sufficient). -/
def extendRightAux (a b : List Char) (ahi bhi besti bestj : Nat) : Nat → Nat → Nat
  | 0, bestsize => bestsize
  | f + 1, bestsize =>
    if besti + bestsize < ahi ∧ bestj + bestsize < bhi ∧
        a.get? (besti + bestsize) = b.get? (bestj + bestsize) ∧ (a.get? (besti + bestsize)).isSome
    then extendRightAux a b ahi bhi besti bestj f (bestsize + 1)
    else bestsize

/-- difflib `SequenceMatcher.find_longest_match` on `a[alo:ahi]`, `b[blo:bhi]`
with empty junk sets. -/
def findLongestMatch (a b : List Char) (alo ahi blo bhi : Nat) : Nat × Nat × Nat :=
  let best := flmFold a b alo ahi blo bhi
  let best := extendLeft a b alo blo best.1 best.2.1 best.2.2
  (best.1, best.2.1, extendRightAux a b ahi bhi best.1 best.2.1 (ahi + 1) best.2.2)

/-- Recursive block collection of `get_matching_blocks`: recursing on the
ranges left and right of the longest match yields the blocks already in
sorted order (the queue-and-sort of the source visits the same ranges). -/
def matchingBlocksAux (a b : List Char) : Nat → Nat → Nat → Nat → Nat → List (Nat × Nat × Nat)
  | 0, _, _, _, _ => []
  | fuel + 1, alo, ahi, blo, bhi =>
    let m := findLongestMatch a b alo ahi blo bhi
    let i := m.1
    let j := m.2.1
    let k := m.2.2
    if k = 0 then []
    else
      (if alo < i ∧ blo < j then matchingBlocksAux a b fuel alo i blo j else []) ++
        [(i, j, k)] ++
        (if i + k < ahi ∧ j + k < bhi then matchingBlocksAux a b fuel (i + k) ahi (j + k) bhi else [])

/-- Merge adjacent blocks, as in `get_matching_blocks` (accumulator starts
at `(0, 0, 0)` like the source's `i1 = j1 = k1 = 0`). -/
def mergeBlocks : List (Nat × Nat × Nat) → Nat × Nat × Nat → List (Nat × Nat × Nat)
  | [], acc => if acc.2.2 ≠ 0 then [acc] else []
  | (i2, j2, k2) :: rest, (i1, j1, k1) =>
    if i1 + k1 = i2 ∧ j1 + k1 = j2 then mergeBlocks rest (i1, j1, k1 + k2)
    else if k1 ≠ 0 then (i1, j1, k1) :: mergeBlocks rest (i2, j2, k2)
    else mergeBlocks rest (i2, j2, k2)

/-- difflib `SequenceMatcher.get_matching_blocks` (with the terminating
zero-length sentinel block). -/
def getMatchingBlocks (a b : List Char) : List (Nat × Nat × Nat) :=
  mergeBlocks (matchingBlocksAux a b (a.length + b.length + 1) 0 a.length 0 b.length) (0, 0, 0) ++
    [(a.length, b.length, 0)]

/-- `_sequencematcher_ratio(None, a, b)`: `2 * M / (len(a) + len(b))`, or 1
when both strings are empty (the lru_cache wrapper is semantically
transparent for a pure function). -/
def smSimilarity (a b : List Char) : Q :=
  let msum : Nat := ((getMatchingBlocks a b).map fun t => t.2.2).foldl (· + ·) 0
  let len := a.length + b.length
  if len ≠ 0 then mkQ (2 * (msum : Int)) len else q1

/-- `_sequencematcher_blocks_filter_sum(None, a, b)`: total length of the
matching blocks longer than 3 characters. -/
def smBlocksFilterSum (a b : List Char) : Nat :=
  ((((getMatchingBlocks a b).map fun t => t.2.2).filter fun n => decide (n > 3)).foldl (· + ·) 0)

/- ## Data model -/

/-- Python exceptions crossing the modelled interfaces. -/
inductive PyErr where
  | transport (msg : String)
  | zeroDivision
  | valueError
  | noFuel
deriving DecidableEq

deriving instance DecidableEq for Except

/-- Runner.QueryMatchType (values follow the KRunner enumeration). -/
inductive QueryMatchType where
  | NoMatch
  | CompletionMatch
  | PossibleMatch
  | InformationalMatch
  | HelperMatch
  | ExactMatch
deriving DecidableEq

def QueryMatchType.val : QueryMatchType → Nat
  | .NoMatch => 0
  | .CompletionMatch => 10
  | .PossibleMatch => 30
  | .InformationalMatch => 50
  | .HelperMatch => 70
  | .ExactMatch => 100

/-- Per-entry precomputed data of Runner._create_match_data. -/
structure MatchData where
  ancestor_labels : List String
  ancestor_labels_words : List String
  label : String
  label_words : List String
deriving DecidableEq

/-- Runner._create_match_data: lowercase and normalise the ancestor labels
and the leaf label, split into word sets, and subtract the label's words
from the ancestors' words (Python sets are modelled as deduplicated lists;
every later use is order-insensitive). -/
def createMatchData (ancestorLabels : List String) (label : String) : MatchData :=
  let als := ancestorLabels.map fun l => removeSpecialChars (pyLower l)
  let alWords := dedup (als.map pyWords).flatten
  let lbl := removeSpecialChars (pyLower label)
  let lblWords := dedup (pyWords lbl)
  { ancestor_labels := als,
    ancestor_labels_words := alWords.filter fun w => ¬ lblWords.contains w,
    label := lbl,
    label_words := lblWords }

/-- Flattened leaf entry as produced by Runner._get_dbusmenu_entries
(ancestors carry the id and raw label of each expanded group node,
root-to-parent order). -/
structure RawEntry where
  id : Int
  label : String
  icon_name : Option String
  shortcut : Option String
  ancestors : List (Int × String)
deriving DecidableEq

/-- Indexed menu entry as stored in Runner._menu_entries. -/
structure MenuEntry where
  id : Int
  label : String
  icon_name : Option String
  shortcut : Option String
  ancestors : List (Int × String)
  action_id : String
  action_text : String
  match_data : MatchData
deriving DecidableEq

/-- Result tuple `(action_id, action_text, icon_name, type, relevance,
properties)` of Runner._make_action. -/
structure QueryMatch where
  action_id : String
  action_text : String
  icon_name : String
  match_kind : Nat
  relevance : Q
  properties : List (String × String)
deriving DecidableEq

/-- Runner._make_action. -/
def makeAction (e : MenuEntry) (t : QueryMatchType) (relevance : Q) : QueryMatch :=
  { action_id := e.action_id,
    action_text := e.action_text,
    icon_name := e.icon_name.getD "",
    match_kind := t.val,
    relevance := relevance,
    properties := match e.shortcut with
      | some sc => [("subtext", sc)]
      | none => [] }

/- ## Menu loader (Runner._load_menu / _get_dbusmenu_entries) -/

/-- Property mapping of a dbusmenu node (the properties requested by the
loader; absent keys behave like Python `dict.get`). -/
structure NodeProps where
  label : Option String := none
  icon_name : Option String := none
  children_display : Option String := none
  enabled : Option Bool := none
  shortcut : Option (List (List String)) := none
deriving DecidableEq

/-- Python truthiness of an optional string property. -/
def truthyStr : Option String → Bool
  | some s => s ≠ ""
  | none => false

/-- A dbusmenu layout node `(id, properties, children)`. -/
inductive MenuNode where
  | mk (nid : Int) (props : NodeProps) (children : List MenuNode)

def MenuNode.nid : MenuNode → Int
  | .mk i _ _ => i

def MenuNode.props : MenuNode → NodeProps
  | .mk _ p _ => p

def MenuNode.children : MenuNode → List MenuNode
  | .mk _ _ c => c

/-- The com.canonical.dbusmenu remote: `GetLayout(id, -1, props)` returns a
revision and a full subtree, or raises a transport error.  (`AboutToShow`
is a pure notification and is not tracked.) -/
structure MenuTransport where
  layout : Int → Except String (Nat × MenuNode)

/-- Shortcut rendering of entry construction: `'+'.join(key.upper() if
len(key) == 1 else key for key in shortcut[0])`. -/
def formatShortcut (keys : List String) : String :=
  joinWith "+" (keys.map fun k => if k.length = 1 then pyUpper k else k)

/-- The entry dictionary built for one node (id, raw label, and the icon
and shortcut fields added only when their properties are truthy). -/
def mkRawEntry (id : Int) (props : NodeProps) : RawEntry :=
  { id := id,
    label := props.label.getD "",
    icon_name := if truthyStr props.icon_name then props.icon_name else none,
    shortcut := match props.shortcut with
      | some (keys :: _) => some (formatShortcut keys)
      | _ => none,
    ancestors := [] }

/-- Argument of one step of the generator recursion: either one node (the
body of `_get_dbusmenu_entries`) or the iteration over a child list with
the parent's post-fetch id and raw label (the `for child in children`
loop, which prepends the parent entry to each item's ancestors when the
parent is not the root). -/
inductive GenCall where
  | node (id : Int) (props : NodeProps) (children : List MenuNode)
  | kids (pid : Int) (plabel : String) (cs : List MenuNode)

/-- Runner._get_dbusmenu_entries as a generator run to completion: returns
the entries yielded before any transport failure together with the failure,
mirroring that a consumer sees a prefix of the yields and then the raised
error.  A node is (re)fetched when it is the root or declares lazy
children; fuel bounds the recursion through remotely fetched subtrees and
is always sufficient in this development. -/
def genEntriesAux (tp : MenuTransport) : Nat → GenCall → List RawEntry × Option PyErr
  | 0, _ => ([], some .noFuel)
  | _ + 1, .kids _ _ [] => ([], none)
  | fuel + 1, .kids pid plabel (c :: rest) =>
    let r := genEntriesAux tp fuel (.node c.nid c.props c.children)
    let items := if pid ≠ 0 then r.1.map fun it => { it with ancestors := (pid, plabel) :: it.ancestors }
                 else r.1
    match r.2 with
    | some e => (items, some e)
    | none =>
      let rr := genEntriesAux tp fuel (.kids pid plabel rest)
      (items ++ rr.1, rr.2)
  | fuel + 1, .node id0 props0 children0 =>
    let fetched : Except String (Int × NodeProps × List MenuNode) :=
      if id0 = 0 ∨ (truthyStr props0.children_display ∧ children0.isEmpty) then
        match tp.layout id0 with
        | .error e => .error e
        | .ok (_, n) => .ok (n.nid, n.props, n.children)
      else .ok (id0, props0, children0)
    match fetched with
    | .error e => ([], some (.transport e))
    | .ok (id_, props, children) =>
      let entry := mkRawEntry id_ props
      let selfList :=
        if children.isEmpty ∧ props.enabled.getD true ∧ entry.label ≠ "" then [entry] else []
      let rr := genEntriesAux tp fuel (.kids id_ entry.label children)
      (selfList ++ rr.1, rr.2)

/-- The root invocation `_get_dbusmenu_entries(dbusmenu)` (id 0, no props
or children supplied; the root branch fetches before touching them). -/
def genEntries (tp : MenuTransport) (fuel : Nat) : List RawEntry × Option PyErr :=
  genEntriesAux tp fuel (.node 0 {} [])

/-- The action id built in Runner._load_menu:
`"{}|{}|{}|{}".format(service, objpath, ','.join(map(str, ancestor_ids)), id)`. -/
def encodeActionId (service objpath : String) (ancestorIds : List Int) (id : Int) : String :=
  service ++ "|" ++ objpath ++ "|" ++ joinWith "," (ancestorIds.map toString) ++ "|" ++ toString id

/-- The indexed entry built in Runner._load_menu for one yielded entry. -/
def buildEntry (service objpath : String) (raw : RawEntry) : MenuEntry :=
  let label := formatLabel raw.label
  let ancestor_labels := raw.ancestors.map fun a => formatLabel a.2
  { id := raw.id,
    label := raw.label,
    icon_name := raw.icon_name,
    shortcut := raw.shortcut,
    ancestors := raw.ancestors,
    action_id := encodeActionId service objpath (raw.ancestors.map Prod.fst) raw.id,
    action_text := joinWith " » " (ancestor_labels ++ [label]),
    match_data := createMatchData ancestor_labels label }

/-- Mutable state of the Runner façade relevant to Match and Run. -/
structure RunnerState where
  active_appmenu : Option String × Option String
  menu_entries : Option (List MenuEntry)
deriving DecidableEq

/-- Runner._load_menu: with no active appmenu the cache becomes `None`;
otherwise entries are appended one by one as the generator yields, so a
transport error leaves the entries built so far in the cache and
propagates. -/
def loadMenu (tp : MenuTransport) (fuel : Nat) (st : RunnerState) : RunnerState × Option PyErr :=
  match st.active_appmenu with
  | (some service, some objpath) =>
    let r := genEntries tp fuel
    ({ st with menu_entries := some (r.1.map (buildEntry service objpath)) }, r.2)
  | _ => ({ st with menu_entries := none }, none)

/- ## Match engine (Runner._match / _match_one) -/

/-- Best ratio of a query word against the entry's words
(`chain(label_words, ancestor_labels_words)` with the inner `break` once a
ratio of 1 is reached; breaking early never changes the maximum). -/
def bestWordScore (lex : List String) (qword : String) : Q :=
  lex.foldl (fun ws lw => if ws = q1 then ws else Q.max2 ws (smSimilarity lw.data qword.data)) q0

/-- The word loop of `_match_one`: sum of the best scores of the query
words, or `none` when some word scores below 0.7 (the `return` that ends
the generator — conjunctive semantics of the word path). -/
def wordLoop (lex : List String) : List String → Option Q
  | [] => some q0
  | qw :: qws =>
    let ws := bestWordScore lex qw
    if Q.blt ws (mkQ 7 10) then none
    else (wordLoop lex qws).map fun total => Q.add ws total

/-- First phase of `_match_one` (up to the first possible yield): the
whole-query score `blocks_filter_sum(label, query) / len(query)`, yielded
when at least 0.8, with ExactMatch type exactly at score 1.  The division
raises ZeroDivisionError on an empty (normalised) query. -/
def matchOneWhole (label q : String) : Except PyErr (List (QueryMatchType × Q)) :=
  if q.length = 0 then .error .zeroDivision
  else
    let score := Q.divn (mkQ (smBlocksFilterSum label.data q.data : Int) 1) q.length
    if Q.ble (mkQ 4 5) score then
      .ok [(if score = q1 then .ExactMatch else .PossibleMatch, score)]
    else .ok []

/-- Second phase of `_match_one`: the word-average score penalised by 0.3,
typed ExactMatch exactly when the average (before the penalty) is 1.  The
average divides by the number of query words (ZeroDivisionError when the
word list is empty). -/
def matchOneWords (qws lwords awords : List String) : Except PyErr (List (QueryMatchType × Q)) :=
  match wordLoop (lwords ++ awords) qws with
  | none => .ok []
  | some total =>
    if qws.length = 0 then .error .zeroDivision
    else
      let avg := Q.divn total qws.length
      .ok [(if avg = q1 then .ExactMatch else .PossibleMatch, Q.sub avg (mkQ 3 10))]

/-- The consumer loop of `_match`: append the scores yielded by
`_match_one`, breaking as soon as a yielded score is 1 — in that case the
generator is never advanced again, so the word phase does not run. -/
def entryScores (q : String) (qws : List String) (label : String)
    (lwords awords : List String) : Except PyErr (List (Q × QueryMatchType)) := do
  let first ← matchOneWhole label q
  match first with
  | (t, s) :: _ =>
    if s = q1 then return [(s, t)]
    else
      match (← matchOneWords qws lwords awords) with
      | [] => return [(s, t)]
      | (t2, s2) :: _ => return [(s, t), (s2, t2)]
  | [] =>
    match (← matchOneWords qws lwords awords) with
    | [] => return []
    | (t2, s2) :: _ => return [(s2, t2)]

/-- Ascending order used by `scores.sort()` on `(score, type)` pairs
(Python would compare the enum members only on equal scores, which cannot
happen: whole-query scores are ≥ 0.8 and word scores ≤ 0.7). -/
def scoreAsc (x y : Q × QueryMatchType) : Prop :=
  x.1.num * y.1.denI < y.1.num * x.1.denI ∨
    (x.1.num * y.1.denI = y.1.num * x.1.denI ∧ x.2.val ≤ y.2.val)

instance : DecidableRel scoreAsc := fun x y => by
  unfold scoreAsc; exact inferInstance

/-- Per-entry body of the loop in `_match`: collect the scores, and when
any, sort ascending and yield an action from the smallest `(score, type)`
pair with relevance `score * 0.9`. -/
def entryMatch (q : String) (qws : List String) (e : MenuEntry) :
    Except PyErr (List QueryMatch) := do
  let md := e.match_data
  let scores ← entryScores q qws md.label md.label_words md.ancestor_labels_words
  match List.insertionSort scoreAsc scores with
  | [] => return []
  | (s, t) :: _ => return [makeAction e t (Q.mul s (mkQ 9 10))]

/-- Runner._match over the cached entries: normalise the query, split into
words, and concatenate the per-entry actions in entry order. -/
def matchEntries (entries : List MenuEntry) (query : String) :
    Except PyErr (List QueryMatch) := do
  let q := removeSpecialChars (pyLower query)
  let qws := pyWords q
  entries.foldlM (fun acc e => do
    let acts ← entryMatch q qws e
    return acc ++ acts) []

/- ## Façade operations (Runner.Match / Runner.Run) -/

/-- Descending order on results used by
`results.sort(key=itemgetter(4, 3), reverse=True)`: by relevance, then by
match kind. -/
def resGE (x y : QueryMatch) : Prop :=
  y.relevance.num * x.relevance.denI < x.relevance.num * y.relevance.denI ∨
    (y.relevance.num * x.relevance.denI = x.relevance.num * y.relevance.denI ∧
      y.match_kind ≤ x.match_kind)

instance : DecidableRel resGE := fun x y => by
  unfold resGE; exact inferInstance

/-- The tracker-synchronisation step at the top of Match: when the published
appmenu differs from the remembered one, adopt it and drop the cache. -/
def syncTracker (st : RunnerState) (tracker : Option String × Option String) : RunnerState :=
  if st.active_appmenu ≠ tracker then { active_appmenu := tracker, menu_entries := none }
  else st

/-- The load step of Match: `if self._menu_entries is None: self._load_menu()`. -/
def ensureLoaded (tp : MenuTransport) (fuel : Nat) (st : RunnerState) :
    RunnerState × Option PyErr :=
  if st.menu_entries = none then loadMenu tp fuel st else (st, none)

/-- Runner.Match: synchronise with the tracker, load the menu if needed,
return `[]` for an unavailable/empty menu or a query shorter than 3
characters (untrimmed), otherwise score, sort descending by (relevance,
match kind) and cap at 10 results.  Any exception is logged and re-raised
(`except Exception: ... raise`), so it reaches the host; a load failure
leaves the partially built cache in place. -/
def MatchOp (tp : MenuTransport) (fuel : Nat) (tracker : Option String × Option String)
    (st : RunnerState) (query : String) :
    Except PyErr (List QueryMatch) × RunnerState :=
  let st1 := syncTracker st tracker
  match ensureLoaded tp fuel st1 with
  | (st2, some e) => (.error e, st2)
  | (st2, none) =>
    match st2.menu_entries with
    | none => (.ok [], st2)
    | some [] => (.ok [], st2)
    | some entries =>
      if query.length < 3 then (.ok [], st2)
      else
        match matchEntries entries query with
        | .error e => (.error e, st2)
        | .ok results => (.ok ((List.insertionSort resGE results).take 10), st2)

/-- The decoding in Runner.Run:
`service, objpath, ancestors, entry_id = matchId.split('|')` followed by
`list(map(int, ancestors.split(',')))` and `int(entry_id)`; any failure
(wrong arity, non-numeric id, or the empty ancestor field produced by an
empty chain) raises ValueError. -/
def decodeMatchId (matchId : String) : Option (String × String × List Int × Int) :=
  match pySplitOn '|' matchId.data with
  | [service, objpath, ancestors, entryId] =>
    match (pySplitOn ',' ancestors).mapM parsePyInt, parsePyInt entryId with
    | some ancs, some eid => some (⟨service⟩, ⟨objpath⟩, ancs, eid)
    | _, _ => none
  | _ => none

/-- Runner.Run, returning the sequence of `Event(id, name, data, timestamp)`
calls issued to the dbusmenu of the decoded source: "opened" for every
ancestor in order, then "clicked" for the leaf, then "closed" for every
ancestor.  A ValueError from decoding propagates to the host. -/
def RunOp (matchId : String) : Except PyErr (List (Int × String × String × Int)) :=
  match decodeMatchId matchId with
  | none => .error .valueError
  | some (_, _, ancestors, eid) =>
    .ok ((ancestors.map fun a => (a, "opened", "", 0)) ++
      [(eid, "clicked", "", 0)] ++
      (ancestors.map fun a => (a, "closed", "", 0)))

/- ## Window focus tracker (AppmenuXWindowInfo._update_active_appmenu) -/

/-- Per-window facts read from the X server: the WM_CLASS pair and the two
appmenu properties. -/
structure XWindowInfo where
  wm_class : Option (String × String)
  appmenu : Option String × Option String
deriving DecidableEq

/-- State owned by the tracker thread. -/
structure TrackerState where
  active_window_id : Option Nat
  active_appmenu : Option String × Option String
deriving DecidableEq

/-- AppmenuXWindowInfo._update_active_appmenu: no-op when the active window
id is unchanged; a falsy id (none, or 0) publishes an absent appmenu; a
krunner-classed window is skipped entirely, keeping both the remembered id
and the published appmenu; otherwise the window's appmenu is published and
the id remembered. -/
def updateActiveAppmenu (windows : Nat → XWindowInfo) (st : TrackerState)
    (winid : Option Nat) : TrackerState :=
  if winid = st.active_window_id then st
  else if winid = none ∨ winid = some 0 then
    { active_window_id := winid, active_appmenu := (none, none) }
  else
    match winid with
    | none => st
    | some w =>
      if (windows w).wm_class = some ("krunner", "krunner") then st
      else { active_window_id := winid, active_appmenu := (windows w).appmenu }

/- ## Concrete fixtures used by the claim theorems -/

/-- A transport that is never contacted (the cache is already populated in
the scenarios using it). -/
def tpUnused : MenuTransport := ⟨fun _ => .error "unused"⟩

/-- A menu source as published by the tracker. -/
def sampleSource : Option String × Option String := (some "svc", some "/p")

/-- A single top-level leaf entry with the given raw label, as the loader
builds it from source "svc" "/p". -/
def sampleLeaf (label : String) : MenuEntry := buildEntry "svc" "/p" ⟨1, label, none, none, []⟩

/-- Runner state with one cached leaf entry for `sampleSource`. -/
def sampleState (label : String) : RunnerState := ⟨sampleSource, some [sampleLeaf label]⟩

/-- A transport whose root layout holds one plain leaf ("Open") followed by
a lazily populated submenu ("File"); fetching the submenu's children
fails.  The generator therefore yields the leaf and then raises. -/
def tpFailing : MenuTransport :=
  ⟨fun i =>
    if i = 0 then
      .ok (1, .mk 0 {} [.mk 1 { label := some "Open" } [],
                        .mk 2 { label := some "File", children_display := some "submenu" } []])
    else .error "ServiceUnknown"⟩

/- ## Helper lemmas -/

/-- Validation of the SequenceMatcher embedding against difflib's documented
behaviour on representative pairs (matching blocks include the zero-length
sentinel; ratios are `2M / (len(a) + len(b))`). -/
theorem smModel_validation :
    getMatchingBlocks "abc".data "acb".data = [(0, 0, 1), (1, 2, 1), (3, 3, 0)] ∧
    getMatchingBlocks "abab".data "bababa".data = [(0, 1, 4), (4, 6, 0)] ∧
    getMatchingBlocks "axbxcxd".data "abcd".data =
      [(0, 0, 1), (2, 1, 1), (4, 2, 1), (6, 3, 1), (7, 4, 0)] ∧
    getMatchingBlocks "file new".data "new file".data = [(0, 4, 4), (8, 8, 0)] ∧
    getMatchingBlocks "open recent".data "recent open".data = [(5, 0, 6), (11, 11, 0)] ∧
    smSimilarity "abc".data "acb".data = mkQ 2 3 ∧
    smSimilarity "abab".data "bababa".data = mkQ 4 5 ∧
    smSimilarity "word".data "sword".data = mkQ 8 9 ∧
    smSimilarity "abcdef".data "fabcde".data = mkQ 5 6 ∧
    smSimilarity "hello".data "zzzz".data = q0 ∧
    smBlocksFilterSum "quit".data "quit".data = 4 ∧
    smBlocksFilterSum "ab".data "ab".data = 0 ∧
    smBlocksFilterSum "abcdefghijkl".data "abcdefghijkl xq".data = 12 := by
  refine ⟨?_, ?_, ?_, ?_, ?_, ?_, ?_, ?_, ?_, ?_, ?_, ?_, ?_⟩ <;> decide

theorem wordLoop_eq_none (lex : List String) (qws : List String) (w : String)
    (hw : w ∈ qws) (hlt : Q.blt (bestWordScore lex w) (mkQ 7 10) = true) :
    wordLoop lex qws = none := by
  induction qws with
  | nil => cases hw
  | cons q rest ih =>
    rcases List.mem_cons.mp hw with rfl | hmem
    · simp [wordLoop, hlt]
    · unfold wordLoop
      by_cases hq : Q.blt (bestWordScore lex q) (mkQ 7 10) = true
      · simp [hq]
      · simp [hq, ih hmem]

theorem splitSpacesAux_no_space (l acc : List Char) (h : ∀ c ∈ l, c ≠ ' ') :
    splitSpacesAux l acc =
      if acc.reverse ++ l = [] then [] else [acc.reverse ++ l] := by
  induction l generalizing acc with
  | nil =>
    simp [splitSpacesAux]
  | cons c cs ih =>
    have hc : c ≠ ' ' := h c (List.mem_cons_self c cs)
    have hrest : ∀ x ∈ cs, x ≠ ' ' := fun x hx => h x (List.mem_cons_of_mem c hx)
    simp only [splitSpacesAux, if_neg hc]
    rw [ih (c :: acc) hrest]
    simp

theorem mk_data_eq (s : String) : (⟨s.data⟩ : String) = s := by
  cases s
  rfl

theorem Q.denI_pos (q : Q) : 0 < q.denI := by
  have := Int.natCast_nonneg q.pden
  unfold Q.denI
  omega

instance : IsTotal QueryMatch resGE :=
  ⟨fun x y => by
    unfold resGE
    rcases lt_trichotomy (y.relevance.num * x.relevance.denI)
        (x.relevance.num * y.relevance.denI) with h | h | h
    · exact Or.inl (Or.inl h)
    · rcases Nat.le_total y.match_kind x.match_kind with hk | hk
      · exact Or.inl (Or.inr ⟨h, hk⟩)
      · exact Or.inr (Or.inr ⟨h.symm, hk⟩)
    · exact Or.inr (Or.inl h)⟩

instance : IsTrans QueryMatch resGE :=
  ⟨fun x y z h1 h2 => by
    unfold resGE at h1 h2 ⊢
    have hx := Q.denI_pos x.relevance
    have hy := Q.denI_pos y.relevance
    have hz := Q.denI_pos z.relevance
    set xn := x.relevance.num with hxn
    set yn := y.relevance.num with hyn
    set zn := z.relevance.num with hzn
    set xd := x.relevance.denI with hxd
    set yd := y.relevance.denI with hyd
    set zd := z.relevance.denI with hzd
    rcases h1 with h1 | ⟨h1, hk1⟩ <;> rcases h2 with h2 | ⟨h2, hk2⟩
    · refine Or.inl ?_
      have a1 : yn * xd * zd < xn * yd * zd := mul_lt_mul_of_pos_right h1 hz
      have a2 : zn * yd * xd < yn * zd * xd := mul_lt_mul_of_pos_right h2 hx
      have b : zn * xd * yd < xn * zd * yd := by nlinarith
      exact lt_of_mul_lt_mul_right b (le_of_lt hy)
    · refine Or.inl ?_
      have a1 : yn * xd * zd < xn * yd * zd := mul_lt_mul_of_pos_right h1 hz
      have a2 : zn * yd * xd = yn * zd * xd := by rw [h2]
      have b : zn * xd * yd < xn * zd * yd := by nlinarith
      exact lt_of_mul_lt_mul_right b (le_of_lt hy)
    · refine Or.inl ?_
      have a1 : yn * xd * zd = xn * yd * zd := by rw [h1]
      have a2 : zn * yd * xd < yn * zd * xd := mul_lt_mul_of_pos_right h2 hx
      have b : zn * xd * yd < xn * zd * yd := by nlinarith
      exact lt_of_mul_lt_mul_right b (le_of_lt hy)
    · refine Or.inr ⟨?_, le_trans hk2 hk1⟩
      have a1 : yn * xd * zd = xn * yd * zd := by rw [h1]
      have a2 : zn * yd * xd = yn * zd * xd := by rw [h2]
      have b : zn * xd * yd = xn * zd * yd := by nlinarith
      exact mul_right_cancel₀ (ne_of_gt hy) b⟩

/- ## Claim theorems -/

/-- C1: the action id built by the menu loader for a top-level leaf (empty
ancestor chain) cannot be decoded by Run: the ancestor field is the empty
string, `int('')` raises ValueError, and Run aborts instead of recovering
`(source, [], leaf id)` — decoding is not a left inverse of construction on
empty ancestor chains, although the claim (and the encoding's evident
intent) requires it. -/
theorem action_id_empty_chain_not_decodable :
    encodeActionId ":1.0" "/MenuBar" [] 5 = ":1.0|/MenuBar||5" ∧
    decodeMatchId (encodeActionId ":1.0" "/MenuBar" [] 5) = none ∧
    RunOp (encodeActionId ":1.0" "/MenuBar" [] 5) = .error .valueError :=
  ⟨by decide, by decide, by decide⟩

/-- C10: a query of length 3 consisting only of non-word characters
normalises to the empty string, whose length divides the whole-query block
sum in `_match_one`; with a non-empty cached entry list, Match raises
ZeroDivisionError instead of returning a result list. -/
theorem match_zero_division_on_nonword_query :
    "!!!".length = 3 ∧ removeSpecialChars (pyLower "!!!") = "" ∧
    MatchOp tpUnused 1 sampleSource (sampleState "Hello") "!!!" =
      (.error .zeroDivision, sampleState "Hello") :=
  ⟨by decide, by decide, by decide⟩

/-- C5 counterexample: for the well-formed match id ":1.0|/MenuBar|2|7"
(one ancestor, id 2; leaf id 7), Run issues an "opened" event for the
ancestor, the "clicked" event for the leaf, and a "closed" event for the
ancestor — three events, not the single leaf activation the claim
states. -/
theorem run_sends_bracket_events :
    RunOp ":1.0|/MenuBar|2|7" =
      .ok [(2, "opened", "", 0), (7, "clicked", "", 0), (2, "closed", "", 0)] ∧
    [((2 : Int), "opened", "", (0 : Int)), (7, "clicked", "", 0), (2, "closed", "", 0)] ≠
      [((7 : Int), "clicked", "", (0 : Int))] :=
  ⟨by decide, by decide⟩

/-- C5 amended: Run decodes the match id into (service, path, ancestors,
leaf id) and sends "opened" events for the ancestors in order, then the
leaf "clicked" event, then "closed" events for the ancestors. -/
theorem run_events_decoded (m service objpath : String) (ancs : List Int) (eid : Int)
    (h : decodeMatchId m = some (service, objpath, ancs, eid)) :
    RunOp m = .ok ((ancs.map fun a => (a, "opened", "", 0)) ++
      [(eid, "clicked", "", 0)] ++ (ancs.map fun a => (a, "closed", "", 0))) := by
  simp [RunOp, h]

theorem run_events_decoded_witness :
    RunOp ":1.0|/MenuBar|2|7" =
      .ok (([2].map fun a => ((a : Int), "opened", "", (0 : Int))) ++
        [((7 : Int), "clicked", "", (0 : Int))] ++
        ([2].map fun a => ((a : Int), "closed", "", (0 : Int)))) :=
  run_events_decoded ":1.0|/MenuBar|2|7" ":1.0" "/MenuBar" [2] 7 (by decide)

/-- C7 counterexample: the normalisation applied to entry tokens and
queries keeps accented letters untouched — `é` is a word character of
`\w`, no compatibility decomposition or mark stripping is performed, so
"café!" normalises to "café", not to the diacritic-free "cafe". -/
theorem normalize_keeps_diacritics :
    wordChar 'é' = true ∧
    removeSpecialChars (pyLower "café!") = "café" ∧
    "café" ≠ "cafe" :=
  ⟨by decide, by decide, by decide⟩

/-- C7 amended: the normalisation lowercases (at its call sites), replaces
every non-word character by a space, collapses space runs and trims — and
nothing else: a string made of word characters only (accented letters
included) passes through unchanged. -/
theorem removeSpecialChars_word_only (s : String) (h : ∀ c ∈ s.data, wordChar c = true) :
    removeSpecialChars s = s := by
  unfold removeSpecialChars
  have hmap : s.data.map (fun c => if wordChar c then c else ' ') = s.data := by
    calc s.data.map (fun c => if wordChar c then c else ' ')
        = s.data.map id := List.map_congr_left fun c hc => by simp [h c hc]
      _ = s.data := List.map_id s.data
  rw [hmap]
  have hns : ∀ c ∈ s.data, c ≠ ' ' := by
    intro c hc
    have := h c hc
    intro heq
    rw [heq] at this
    exact absurd this (by decide)
  unfold splitSpaces
  rw [splitSpacesAux_no_space s.data [] hns]
  cases hs : s.data with
  | nil =>
    have : s = "" := by
      cases s
      simp_all
    simp [this, joinWith]
  | cons c cs =>
    simp only [List.reverse_nil, List.nil_append, hs]
    simp [joinWith, ← hs, mk_data_eq]

theorem removeSpecialChars_word_only_witness :
    removeSpecialChars "café" = "café" :=
  removeSpecialChars_word_only "café" (by decide)

/-- C2 counterexample: with a transport that fails while expanding a lazy
submenu, Match propagates the error to the host (it logs and re-raises)
instead of returning an empty list, and the entry cache is left holding
the partial list of entries built before the failure (here the "Open"
leaf, while the tree also contains the unexpanded "File" submenu). -/
theorem match_propagates_load_error :
    (MatchOp tpFailing 10 sampleSource ⟨(none, none), none⟩ "open").1 =
      .error (.transport "ServiceUnknown") ∧
    (MatchOp tpFailing 10 sampleSource ⟨(none, none), none⟩ "open").2.menu_entries =
      some [buildEntry "svc" "/p" ⟨1, "Open", none, none, []⟩] :=
  ⟨by decide, by decide⟩

/-- C2 amended: a transport error raised while loading the menu during a
Match call is re-raised to the host as a fault, and the cached entry list
keeps exactly the entries appended before the failure. -/
theorem match_reraises_load_error (tp : MenuTransport) (fuel : Nat)
    (tracker : Option String × Option String) (st : RunnerState) (q : String)
    (st2 : RunnerState) (e : PyErr)
    (h : ensureLoaded tp fuel (syncTracker st tracker) = (st2, some e)) :
    MatchOp tp fuel tracker st q = (.error e, st2) := by
  simp [MatchOp, h]

theorem match_reraises_load_error_witness :
    MatchOp tpFailing 10 sampleSource ⟨(none, none), none⟩ "open" =
      (.error (.transport "ServiceUnknown"),
        ⟨sampleSource, some [buildEntry "svc" "/p" ⟨1, "Open", none, none, []⟩]⟩) :=
  match_reraises_load_error tpFailing 10 sampleSource ⟨(none, none), none⟩ "open"
    ⟨sampleSource, some [buildEntry "svc" "/p" ⟨1, "Open", none, none, []⟩]⟩
    (.transport "ServiceUnknown") (by decide)

/-- C3 counterexample: for an entry whose full normalised path ("quit", no
ancestors) equals the normalised query, Match reports match kind 100
(ExactMatch) but relevance 0.9, not 1.0 — every chosen score is scaled by
0.9 before being published. -/
theorem exact_match_relevance_not_one :
    (sampleLeaf "Quit").match_data.label = removeSpecialChars (pyLower "Quit") ∧
    (sampleLeaf "Quit").match_data.ancestor_labels = [] ∧
    MatchOp tpUnused 1 sampleSource (sampleState "Quit") "Quit" =
      (.ok [⟨"svc|/p||1", "Quit", "", 100, mkQ 9 10, []⟩], sampleState "Quit") ∧
    mkQ 9 10 ≠ q1 :=
  ⟨by decide, by decide, by decide, by decide⟩

/-- C3 amended: when the whole-query phase of `_match_one` scores exactly 1
(query equal in blocks to the entry's normalised label), the consumer
breaks immediately and the entry's action carries kind ExactMatch and
relevance 0.9 = 1 × 0.9; qualifying scores other than 1 yield kind
PossibleMatch from the whole-query phase, and the word phase types by its
pre-penalty average. -/
theorem exact_whole_score_kind_and_relevance (e : MenuEntry) (q : String)
    (qws : List String)
    (h : matchOneWhole e.match_data.label q = .ok [(.ExactMatch, q1)]) :
    entryMatch q qws e = .ok [makeAction e .ExactMatch (mkQ 9 10)] := by
  simp only [entryMatch, entryScores]
  rw [h]
  rfl

theorem exact_whole_score_kind_and_relevance_witness :
    entryMatch "quit" ["quit"] (sampleLeaf "Quit") =
      .ok [makeAction (sampleLeaf "Quit") .ExactMatch (mkQ 9 10)] :=
  exact_whole_score_kind_and_relevance (sampleLeaf "Quit") "quit" ["quit"] (by decide)

/-- C4 counterexample: the query word "xq" matches none of the entry's
tokens (best ratio 0 < 0.7), yet the entry is not excluded: the
whole-query similarity path scores 0.8 and Match returns the entry with
relevance 0.72 — conjunctive word semantics does not hold across both
scoring paths. -/
theorem unmatched_word_entry_still_matched :
    pyWords (removeSpecialChars (pyLower "Abcdefghijkl xq")) = ["abcdefghijkl", "xq"] ∧
    Q.blt (bestWordScore ((sampleLeaf "Abcdefghijkl").match_data.label_words ++
      (sampleLeaf "Abcdefghijkl").match_data.ancestor_labels_words) "xq") (mkQ 7 10) = true ∧
    MatchOp tpUnused 1 sampleSource (sampleState "Abcdefghijkl") "Abcdefghijkl xq" =
      (.ok [⟨"svc|/p||1", "Abcdefghijkl", "", 30, mkQ 18 25, []⟩],
        sampleState "Abcdefghijkl") :=
  ⟨by decide, by decide, by decide⟩

/-- C4 amended: the conjunctive rule governs only the word-average path —
a query word whose best token ratio is below 0.7 silences that path, and
the entry is excluded entirely exactly when the whole-query similarity
phase also yields nothing (score below 0.8). -/
theorem unmatched_word_excludes_without_whole (e : MenuEntry) (q : String)
    (qws : List String)
    (hwhole : matchOneWhole e.match_data.label q = .ok [])
    (hword : ∃ w ∈ qws, Q.blt (bestWordScore (e.match_data.label_words ++
      e.match_data.ancestor_labels_words) w) (mkQ 7 10) = true) :
    entryMatch q qws e = .ok [] := by
  obtain ⟨w, hw, hlt⟩ := hword
  have hwl := wordLoop_eq_none (e.match_data.label_words ++
    e.match_data.ancestor_labels_words) qws w hw hlt
  simp only [entryMatch, entryScores, matchOneWords]
  rw [hwhole, hwl]
  rfl

theorem unmatched_word_excludes_without_whole_witness :
    entryMatch "zzzz qqqq" ["zzzz", "qqqq"] (sampleLeaf "Hello") = .ok [] :=
  unmatched_word_excludes_without_whole (sampleLeaf "Hello") "zzzz qqqq"
    ["zzzz", "qqqq"] (by decide) ⟨"zzzz", by decide, by decide⟩

/-- C6 counterexample: the length gate uses the untrimmed query: "ab " has
raw length 3 but trimmed length 2, and Match returns a (non-empty) result
instead of the empty list the claim requires for trimmed length < 3. -/
theorem short_trimmed_query_still_matched :
    (pyStrip "ab ").length = 2 ∧ "ab ".length = 3 ∧
    MatchOp tpUnused 1 sampleSource (sampleState "ab") "ab " =
      (.ok [⟨"svc|/p||1", "ab", "", 100, mkQ 63 100, []⟩], sampleState "ab") :=
  ⟨by decide, by decide, by decide⟩

/-- C6 amended: Match returns the empty list for every query whose raw
(untrimmed) length is below 3, whenever the load step raises no error. -/
theorem short_raw_query_empty (tp : MenuTransport) (fuel : Nat)
    (tracker : Option String × Option String) (st : RunnerState) (q : String)
    (hq : q.length < 3) (st2 : RunnerState)
    (h : ensureLoaded tp fuel (syncTracker st tracker) = (st2, none)) :
    MatchOp tp fuel tracker st q = (.ok [], st2) := by
  simp only [MatchOp]
  rw [h]
  cases hm : st2.menu_entries with
  | none => simp [hm]
  | some l =>
    cases l with
    | nil => simp [hm]
    | cons e es => simp [hm, hq]

theorem short_raw_query_empty_witness :
    MatchOp tpUnused 1 (none, none) ⟨(none, none), none⟩ "ab" =
      (.ok [], (⟨(none, none), none⟩ : RunnerState)) :=
  short_raw_query_empty tpUnused 1 (none, none) ⟨(none, none), none⟩ "ab"
    (by decide) ⟨(none, none), none⟩ (by decide)

/-- C8: every successful Match result list has at most 10 elements and is
sorted descending by relevance and then by match kind. -/
theorem match_results_sorted_capped (tp : MenuTransport) (fuel : Nat)
    (tracker : Option String × Option String) (st : RunnerState) (q : String)
    (res : List QueryMatch) (st2 : RunnerState)
    (h : MatchOp tp fuel tracker st q = (.ok res, st2)) :
    res.length ≤ 10 ∧ List.Pairwise resGE res := by
  have pnil : (([] : List QueryMatch)).length ≤ 10 ∧
      List.Pairwise resGE ([] : List QueryMatch) := by simp
  have ptake : ∀ l : List QueryMatch,
      (List.take 10 (List.insertionSort resGE l)).length ≤ 10 ∧
        List.Pairwise resGE (List.take 10 (List.insertionSort resGE l)) := fun l =>
    ⟨by rw [List.length_take]; exact min_le_left _ _,
      List.Pairwise.sublist (List.take_sublist _ _) (List.sorted_insertionSort resGE l)⟩
  simp only [MatchOp] at h
  split at h
  · simp at h
  · split at h
    · injection h with h1 h2
      injection h1 with h1
      exact h1 ▸ pnil
    · injection h with h1 h2
      injection h1 with h1
      exact h1 ▸ pnil
    · split at h
      · injection h with h1 h2
        injection h1 with h1
        exact h1 ▸ pnil
      · split at h
        · simp at h
        · injection h with h1 h2
          injection h1 with h1
          exact h1 ▸ ptake _

theorem match_results_sorted_capped_witness :
    ([] : List QueryMatch).length ≤ 10 ∧ List.Pairwise resGE ([] : List QueryMatch) :=
  match_results_sorted_capped tpUnused 1 (none, none) ⟨(none, none), none⟩ "abc" []
    ⟨(none, none), none⟩ (by decide)

/-- C9: when the newly active window differs from the remembered one but
its window class is krunner's, the tracker update is skipped: both the
remembered window id and the published appmenu stay unchanged. -/
theorem krunner_window_update_skipped (windows : Nat → XWindowInfo)
    (st : TrackerState) (w : Nat) (hw : w ≠ 0)
    (hneq : some w ≠ st.active_window_id)
    (hclass : (windows w).wm_class = some ("krunner", "krunner")) :
    updateActiveAppmenu windows st (some w) = st := by
  simp [updateActiveAppmenu, hneq, hw, hclass]

theorem krunner_window_update_skipped_witness :
    updateActiveAppmenu (fun _ => ⟨some ("krunner", "krunner"), (none, none)⟩)
      ⟨some 1, (some "a", some "b")⟩ (some 2) = ⟨some 1, (some "a", some "b")⟩ :=
  krunner_window_update_skipped (fun _ => ⟨some ("krunner", "krunner"), (none, none)⟩)
    ⟨some 1, (some "a", some "b")⟩ 2 (by decide) (by decide) (by decide)
